import Mathlib

/-
Formal model of the http-addon repository: the Stremio stream-resolution
addon (the second, current revision of stremio.js, which wires three
providers: the main embed API, xprime.tv and HDRezka) and the m3u8 relay
dispatch of m3u8proxy/src/lib/getHandler.js.

Modelling conventions:
  - JavaScript strings are Lean String; JS string falsiness (undefined,
    null or the empty string) is modelled by Option String with
    jsStrFalsy, where none stands for undefined/null and some "" for the
    empty string.
  - Network calls and the JSON.parse / RegExp built-ins are modelled as
    explicit inputs (oracle functions or Except values) so that every
    control-flow decision of the source is a total Lean function of them.
  - JS Array.prototype.sort is stable (required since ECMAScript 2019);
    a stable sort for a total preorder is unique, so the sort at
    stremio.js lines 950-963 is modelled by List.insertionSort over the
    comparator key, which is stable.
-/

/-! ### Generic string helpers mirroring JavaScript built-ins -/

/-- JS string falsiness for an optional string: undefined/null or "". -/
def jsStrFalsy (o : Option String) : Bool :=
  match o with
  | none => true
  | some s => s == ""

/-- Does the needle occur at the head of the haystack. -/
def leadMatch : List Char → List Char → Bool
  | [], _ => true
  | _ :: _, [] => false
  | a :: as, b :: bs => a == b && leadMatch as bs

/-- Does the needle occur anywhere in the haystack. -/
def hasSeg (needle : List Char) : List Char → Bool
  | [] => leadMatch needle []
  | c :: rest => leadMatch needle (c :: rest) || hasSeg needle rest

/-- Model of JS String.prototype.includes (case sensitive). -/
def jsIncludes (hay needle : String) : Bool :=
  hasSeg needle.toList hay.toList

/-- Model of JS String.prototype.toLowerCase (the strings in this program
are ASCII, for which Char.toLower agrees with JS). -/
def strToLower (s : String) : String :=
  String.mk (s.toList.map Char.toLower)

/-- Split a character list at every occurrence of the separator. -/
def splitOnChar (sep : Char) : List Char → List (List Char)
  | [] => [[]]
  | c :: rest =>
    let r := splitOnChar sep rest
    if c == sep then [] :: r
    else
      match r with
      | [] => [[c]]
      | h :: t => (c :: h) :: t

/-- Model of JS id.split(":"), used on Stremio series ids. -/
def jsSplitColon (s : String) : List String :=
  (splitOnChar ':' s.toList).map (fun l => String.mk l)

/-- Model of JS String.prototype.trim for the spaces this program produces. -/
def strTrim (s : String) : String :=
  String.mk (((s.toList.dropWhile Char.isWhitespace).reverse.dropWhile Char.isWhitespace).reverse)

/-- Concatenate with a separator between elements. -/
def strIntercalate (sep : String) : List String → String
  | [] => ""
  | h :: t => t.foldl (fun acc s => acc ++ sep ++ s) h

/-- Upper-case hexadecimal digit. -/
def hexDigitUpper (n : Nat) : Char :=
  if n < 10 then Char.ofNat (48 + n) else Char.ofNat (55 + n)

/-- Lower-case hexadecimal digit. -/
def hexDigitLower (n : Nat) : Char :=
  if n < 10 then Char.ofNat (48 + n) else Char.ofNat (87 + n)

/-- UTF-8 bytes of a character, as numbers below 256. -/
def utf8Bytes (c : Char) : List Nat :=
  let n := c.toNat
  if n < 128 then [n]
  else if n < 2048 then [192 + n / 64, 128 + n % 64]
  else if n < 65536 then [224 + n / 4096, 128 + (n / 64) % 64, 128 + n % 64]
  else [240 + n / 262144, 128 + (n / 4096) % 64, 128 + (n / 64) % 64, 128 + n % 64]

/-- Percent-encoding of one byte, upper case as produced by JS. -/
def percentByte (b : Nat) : String :=
  String.mk ['%', hexDigitUpper (b / 16), hexDigitUpper (b % 16)]

/-- The characters JS encodeURIComponent leaves unescaped besides
letters and digits. -/
def uriUnescapedExtra : List Char :=
  ['-', '_', '.', '!', '~', '*', Char.ofNat 39, '(', ')']

/-- Is the character left unescaped by JS encodeURIComponent. -/
def isUriUnescaped (c : Char) : Bool :=
  c.isAlphanum || uriUnescapedExtra.contains c

/-- Model of the JS encodeURIComponent built-in. -/
def encodeURIComponent (s : String) : String :=
  s.toList.foldl
    (fun acc c =>
      if isUriUnescaped c then acc.push c
      else acc ++ String.join ((utf8Bytes c).map percentByte))
    ""

/-- JSON string escaping as performed by JS JSON.stringify. -/
def jsonEscapeChar (c : Char) : String :=
  if c = Char.ofNat 34 then "\\\""
  else if c = Char.ofNat 92 then "\\\\"
  else if c = Char.ofNat 8 then "\\b"
  else if c = Char.ofNat 9 then "\\t"
  else if c = Char.ofNat 10 then "\\n"
  else if c = Char.ofNat 12 then "\\f"
  else if c = Char.ofNat 13 then "\\r"
  else if c.toNat < 32 then
    String.mk ['\\', 'u', '0', '0', hexDigitLower (c.toNat / 16), hexDigitLower (c.toNat % 16)]
  else String.singleton c

/-- A JSON string literal. -/
def jsonQuote (s : String) : String :=
  "\"" ++ String.join (s.toList.map jsonEscapeChar) ++ "\""

/-- Model of JS JSON.stringify on a flat string-to-string object whose
keys are in insertion order. -/
def jsonStringifyPairs (h : List (String × String)) : String :=
  "\x7b" ++ strIntercalate "," (h.map (fun kv => jsonQuote kv.1 ++ ":" ++ jsonQuote kv.2)) ++ "\x7d"

/-- Does the string contain the IMDB id pattern tt followed by a digit,
case-insensitively: the test args.id.match of stremio.js line 765. -/
def hasTTDigit : List Char → Bool
  | a :: b :: c :: rest =>
    ((a == 't' || a == 'T') && (b == 't' || b == 'T') && c.isDigit) || hasTTDigit (b :: c :: rest)
  | _ => false

/-- Model of the regex test /tt\d+/i applied to a request id. -/
def hasImdbPattern (s : String) : Bool :=
  hasTTDigit s.toList

/-! ### Data model (stremio.js, second revision: lines 265-986) -/

/-- A subtitle entry carried on sources and streams. -/
structure Subtitle where
  url : String
  lang : String
deriving DecidableEq

/-- A raw stream file as delivered by a provider: fields file (the URL),
quality, type and lang, each possibly undefined or empty. -/
structure RawFile where
  file : String
  quality : Option String
  type : Option String
  lang : Option String
deriving DecidableEq

/-- A provider source object as consumed by processStreamingSource.
ERROR models a truthy source.ERROR field; files none models a missing
files array; headers none models missing playback headers. The
source.source unwrapping at line 661 is the identity here: callers pass
the payload record. -/
structure Source where
  ERROR : Bool
  provider : String
  files : Option (List RawFile)
  subtitles : List Subtitle
  headers : Option (List (String × String))
deriving DecidableEq

/-- The normalized stream record built at lines 716-730. The
behaviorHints object is flattened into the headers and notWebReady
fields. -/
structure StreamDesc where
  title : String
  url : String
  name : String
  type : String
  qualityLabel : String
  language : String
  headers : List (String × String)
  notWebReady : Bool
  subtitles : List Subtitle
deriving DecidableEq

/-- The object returned by the stream handler. enrichCacheParams fills
all four fields; the early return at line 767 leaves the three cache
fields undefined, modelled as none. -/
structure HandlerResponse where
  streams : List StreamDesc
  cacheMaxAge : Option Nat
  staleRevalidate : Option Nat
  staleError : Option Nat
deriving DecidableEq

/-! ### Constants (stremio.js lines 278-285) -/

def MAX_RETRIES : Nat := 3

def RETRY_DELAY_MS : Nat := 1000

def CACHE_MAX_AGE : Nat := 60 * 60

def CACHE_MAX_AGE_EMPTY : Nat := 60

def STALE_REVALIDATE_AGE : Nat := 4 * 60 * 60

def STALE_ERROR_AGE : Nat := 7 * 24 * 60 * 60

/-! ### Quality inference (stremio.js lines 669-703) -/

/-- The qualityPatterns table of line 669, in object insertion order.
Each regex /a|b|c/i is the list of its literal alternatives, tested by
case-insensitive containment. -/
def qualityPatterns : List (String × List String) :=
  [("2160p", ["2160p", "4k", "uhd"]),
   ("1080p", ["1080p", "1080", "fhd"]),
   ("720p", ["720p", "720", "hd"]),
   ("480p", ["480p", "480", "sd"]),
   ("360p", ["360p", "360", "ld"])]

/-- pattern.test(file.file) for one of the case-insensitive alternative
regexes above. -/
def patternTest (alternatives : List String) (url : String) : Bool :=
  alternatives.any (fun p => jsIncludes (strToLower url) p)

/-- The for-of loop over Object.entries(qualityPatterns) at line 687:
the first table entry whose pattern matches the URL. -/
def inferFromPatterns (url : String) : Option String :=
  (qualityPatterns.find? (fun pq => patternTest pq.2 url)).map Prod.fst

/-- Quality inference for a file without a declared quality
(lines 687-702): first pattern match, else adaptive for HLS, else
unknown. -/
def inferQuality (url : String) (ftype : Option String) : String :=
  match inferFromPatterns url with
  | some q => q
  | none =>
    if ftype == some "hls" || jsIncludes url ".m3u8" then "adaptive"
    else "unknown"

/-- Is the file an adaptive-streaming asset: file.type === hls or the
URL contains .m3u8 (lines 695 and 707). -/
def isAdaptiveFile (file : RawFile) : Bool :=
  file.type == some "hls" || jsIncludes file.file ".m3u8"

/-- The headers suffix appended to a proxied URL when the source
declares playback headers (lines 711-713). -/
def headersSuffix (headers : Option (List (String × String))) : String :=
  match headers with
  | some h => "&headers=" ++ encodeURIComponent (jsonStringifyPairs h)
  | none => ""

/-- Per-file processing of the files.forEach body at lines 682-732:
quality resolution, conditional rewrite through the m3u8 proxy (skipped
when the proxy is disabled or the provider is 2embed), and construction
of the stream record. -/
def processFile (disableProxy : Bool) (proxyBase : String) (provider : String)
    (headers : Option (List (String × String))) (file : RawFile) : StreamDesc :=
  let quality :=
    if jsStrFalsy file.quality then inferQuality file.file file.type
    else file.quality.getD ""
  let streamUrl :=
    if !disableProxy && isAdaptiveFile file && provider != "2embed" then
      proxyBase ++ "/m3u8-proxy?url=" ++ encodeURIComponent file.file ++ headersSuffix headers
    else file.file
  { title := strTrim (provider ++ " " ++ quality ++ " " ++ (file.lang.getD "")),
    url := streamUrl,
    name := provider,
    type := file.type.getD "url",
    qualityLabel := quality,
    language := file.lang.getD "unknown",
    headers := headers.getD [],
    notWebReady := true,
    subtitles := [] }

/-- processStreamingSource (lines 653-746). The argument is optional to
model a null source. Subtitles are attached to every stream when the
source carries at least one. -/
def processStreamingSource (disableProxy : Bool) (proxyBase : String)
    (src : Option Source) : List StreamDesc :=
  match src with
  | none => []
  | some s =>
    if s.ERROR then []
    else
      match s.files with
      | none => []
      | some files =>
        let streams := files.map (processFile disableProxy proxyBase s.provider s.headers)
        if s.subtitles.length > 0 then
          streams.map (fun st => { st with subtitles := s.subtitles })
        else streams

/-! ### Ranking (stremio.js lines 551-577 and 950-963) -/

/-- The body of getQualityRank after q = String(label).toLowerCase()
(lines 553-563). -/
def qualityRankCore (q : String) : Nat :=
  if jsIncludes q "2160" || jsIncludes q "4k" || jsIncludes q "uhd" then 1
  else if jsIncludes q "1080" || jsIncludes q "fhd" then 2
  else if jsIncludes q "720" || jsIncludes q "hd" then 3
  else if jsIncludes q "adaptive" then 4
  else if jsIncludes q "480" || jsIncludes q "sd" then 5
  else if jsIncludes q "360" || jsIncludes q "ld" then 6
  else if jsIncludes q "unknown" then 99
  else 50

/-- getQualityRank (lines 551-564): rank 100 for a falsy label. -/
def getQualityRank (qualityLabel : String) : Nat :=
  if qualityLabel = "" then 100
  else qualityRankCore (strToLower qualityLabel)

/-- getProviderRank (lines 567-577): xprime.tv first, hdrezka second,
every other named provider at the shared rank 10, falsy name 99. -/
def getProviderRank (providerName : String) : Nat :=
  if providerName = "" then 99
  else
    let name := strToLower providerName
    if jsIncludes name "xprime.tv" then 1
    else if jsIncludes name "hdrezka" then 2
    else 10

/-- The comparator of lines 950-963 sorts by provider rank then quality
rank; since both ranks are below 1000 this equals ordering by the
flattened key providerRank * 1000 + qualityRank. -/
def streamKey (s : StreamDesc) : Nat :=
  getProviderRank s.name * 1000 + getQualityRank s.qualityLabel

/-- The total preorder induced by the sort comparator. -/
def streamLE (a b : StreamDesc) : Prop :=
  streamKey a ≤ streamKey b

instance : DecidableRel streamLE :=
  fun a b => Nat.decLe (streamKey a) (streamKey b)

instance : IsTotal StreamDesc streamLE :=
  ⟨fun a b => Nat.le_total (streamKey a) (streamKey b)⟩

instance : IsTrans StreamDesc streamLE :=
  ⟨fun _ _ _ => Nat.le_trans⟩

/-- allStreams.sort(comparator) at line 950, modelled by the stable
insertion sort for the comparator preorder. -/
def sortStreams (l : List StreamDesc) : List StreamDesc :=
  List.insertionSort streamLE l

/-- The two-level order stated by the spec: strictly better provider
rank, or equal provider rank and no worse quality rank. -/
def twoLevelLE (a b : StreamDesc) : Prop :=
  getProviderRank a.name < getProviderRank b.name ∨
    (getProviderRank a.name = getProviderRank b.name ∧
      getQualityRank a.qualityLabel ≤ getQualityRank b.qualityLabel)

/-- The predicate selecting the streams of one exact (provider rank,
quality rank) class, used to state sort stability. -/
def rankClass (p q : Nat) (s : StreamDesc) : Bool :=
  getProviderRank s.name == p && getQualityRank s.qualityLabel == q

/-! ### enrichCacheParams (stremio.js lines 748-759) -/

/-- enrichCacheParams: streams plus cache metadata; the short max-age is
chosen exactly when the list is empty. -/
def enrichCacheParams (streams : List StreamDesc) : HandlerResponse :=
  let cacheAge := if streams.length = 0 then CACHE_MAX_AGE_EMPTY else CACHE_MAX_AGE
  { streams := streams,
    cacheMaxAge := some cacheAge,
    staleRevalidate := some STALE_REVALIDATE_AGE,
    staleError := some STALE_ERROR_AGE }

/-! ### fetchWithRetry (stremio.js lines 392-419) -/

/-- An HTTP response as observed by the addon: the ok flag, the status
code and the body text. -/
structure HttpResp where
  ok : Bool
  status : Nat
  body : String
deriving DecidableEq

/-- One attempt of the try block at lines 395-403: a thrown fetch error
stays an error, and a response with a non-success status is converted to
the thrown HTTP error of line 400. -/
def attemptOutcome (o : Except String HttpResp) : Except String HttpResp :=
  match o with
  | Except.error e => Except.error e
  | Except.ok r =>
    if r.ok then Except.ok r
    else Except.error ("HTTP error! Status: " ++ toString r.status)

/-- The retry loop of fetchWithRetry, with the attempt counter starting
at 1 and the remaining loop iterations as fuel. Besides the result it
returns the number of fetch attempts made and the list of backoff delays
slept, in order: after failed attempt k and before attempt k+1 the loop
sleeps RETRY_DELAY_MS * 2 ^ (k - 1) milliseconds (line 412). -/
def fetchWithRetryAux (o : Nat → Except String HttpResp) (attempt : Nat) :
    Nat → Except String HttpResp × Nat × List Nat
  | 0 => (Except.error "no attempts", 0, [])
  | fuel + 1 =>
    match attemptOutcome (o attempt) with
    | Except.ok r => (Except.ok r, 1, [])
    | Except.error e =>
      match fuel with
      | 0 => (Except.error e, 1, [])
      | f + 1 =>
        let nxt := fetchWithRetryAux o (attempt + 1) (f + 1)
        (nxt.1, nxt.2.1 + 1, RETRY_DELAY_MS * 2 ^ (attempt - 1) :: nxt.2.2)

/-- fetchWithRetry(url, options, maxRetries): the loop from attempt 1;
when every attempt fails the error of the final attempt is rethrown
(line 418). The oracle o gives the fetch outcome of each attempt. -/
def fetchWithRetry (o : Nat → Except String HttpResp) (maxRetries : Nat) :
    Except String HttpResp × Nat × List Nat :=
  fetchWithRetryAux o 1 maxRetries

/-! ### HDRezka stream fetch (stremio.js lines 506-548) -/

/-- The parsed JSON envelope of the HDRezka stream endpoint. The derived
formattedQualities and formattedCaptions views (built by
parseVideoLinksRezka and parseSubtitlesRezka, which are total and never
throw) are not modelled, because no claim depends on their content. -/
structure RezkaResp where
  success : Bool
  url : Option String
  subtitle : Option String
deriving DecidableEq

/-- getStreamRezka: guards on falsy id or translator id, the retried
POST through fetchWithRetry, then JSON.parse OUTSIDE the retry loop
(line 534): a parse failure on a success response is caught at line 544
and yields null with no further fetch attempt. Returns the result
together with the number of fetch attempts made. -/
def getStreamRezka (o : Nat → Except String HttpResp)
    (parse : String → Except String RezkaResp)
    (id translatorId : Option String) : Option RezkaResp × Nat :=
  if jsStrFalsy id || jsStrFalsy translatorId then (none, 0)
  else
    match fetchWithRetry o MAX_RETRIES with
    | (Except.error _, n, _) => (none, n)
    | (Except.ok r, n, _) =>
      match parse r.body with
      | Except.error _ => (none, n)
      | Except.ok p => if p.success then (some p, n) else (none, n)

/-! ### HDRezka translator resolution (stremio.js lines 478-504) -/

/-- Necessary validity check used to model the RegExp constructor: group
parentheses must balance, counting neither escaped parentheses nor
parentheses inside a character class; JS throws a SyntaxError on an
unbalanced pattern. The depth argument is the number of open groups and
inClass tells whether the scan is inside a bracket class. -/
def regexGroupsBalanced : List Char → Nat → Bool → Bool
  | [], depth, inClass => depth == 0 && !inClass
  | c :: rest, depth, inClass =>
    if c == '\\' then
      match rest with
      | [] => false
      | _ :: r2 => regexGroupsBalanced r2 depth inClass
    else if inClass then regexGroupsBalanced rest depth (c != ']')
    else if c == '[' then regexGroupsBalanced rest depth true
    else if c == '(' then regexGroupsBalanced rest (depth + 1) false
    else if c == ')' then
      if depth == 0 then false else regexGroupsBalanced rest (depth - 1) false
    else regexGroupsBalanced rest depth false

/-- The marker of an original-with-subtitles variant. -/
def translatorMarker : String :=
  "data-translator_id=\"238\""

/-- The pattern string passed to new RegExp at line 495. In the JS
template literal the sequences backslash-dot and backslash-parenthesis
are unrecognized escapes, so the backslashes are dropped and the
resulting pattern contains an UNCLOSED group parenthesis before the item
id. -/
def rezkaRegexPattern (functionName itemId : String) : String :=
  "sof.tv." ++ functionName ++ "(" ++ itemId ++ ", ([^,]+)"

/-- The body of getTranslatorIdRezka on a fetched detail page. The
regexMatch oracle stands for responseText.match on a successfully
compiled regex; it is only consulted when the RegExp constructor does
not throw, i.e. when the pattern groups balance. An invalid pattern
makes new RegExp throw a SyntaxError, which the catch at line 500 turns
into null. -/
def getTranslatorIdRezkaCore (regexMatch : String → String → Option String)
    (itemId : String) (mediaType : String) (text : String) : Option String :=
  if jsIncludes text translatorMarker then some "238"
  else
    let functionName :=
      if mediaType = "movie" then "initCDNMoviesEvents" else "initCDNSeriesEvents"
    let pattern := rezkaRegexPattern functionName itemId
    if regexGroupsBalanced pattern.toList 0 false then regexMatch pattern text
    else none

/-- getTranslatorIdRezka (lines 478-504): falsy url or id returns null;
a failed page fetch is caught and returns null; otherwise the page text
is examined by the core above. -/
def getTranslatorIdRezka (regexMatch : String → String → Option String)
    (itemUrl itemId : Option String) (mediaType : String)
    (page : Except String String) : Option String :=
  if jsStrFalsy itemUrl || jsStrFalsy itemId then none
  else
    match page, itemId with
    | Except.error _, _ => none
    | Except.ok text, some iid => getTranslatorIdRezkaCore regexMatch iid mediaType text
    | Except.ok _, none => none

/-! ### Relay dispatch (m3u8proxy/src/lib/getHandler.js lines 128-179) -/

/-- What the relay handler branch does with a request: answer directly
with a status and body, hand off to proxyM3U8 or proxyTs with the
decoded url and headers, serve the index page, or fall through to the
404 invalid-host answer. -/
inductive RelayOutcome where
  | respond (status : Nat) (body : String)
  | callM3U8 (url : String) (headers : List (String × String))
  | callTs (url : String) (headers : List (String × String))
  | serveIndex
  | invalidHost (path : String)
deriving DecidableEq

/-- The pathname dispatch of getHandler.js lines 135-179, reached for
requests such as /m3u8-proxy and /ts-proxy (the routing guards through
parseURL and isValidHostName, which are not part of the sources, direct
these paths here per the relay HTTP surface). The parse oracle stands
for JSON.parse composed with decodeURIComponent, both of which throw
into the same catch; headersParam is searchParams.get of headers (none
when absent) and urlParam the extracted url parameter. A falsy (empty)
headers value skips parsing and leaves the headers object empty. -/
def proxyDispatch (parse : String → Except String (List (String × String)))
    (pathname : String) (headersParam urlParam : Option String) : RelayOutcome :=
  if pathname = "/m3u8-proxy" then
    if jsStrFalsy headersParam then RelayOutcome.callM3U8 (urlParam.getD "") []
    else
      match parse (headersParam.getD "") with
      | Except.error msg => RelayOutcome.respond 500 msg
      | Except.ok h => RelayOutcome.callM3U8 (urlParam.getD "") h
  else if pathname = "/ts-proxy" then
    if jsStrFalsy headersParam then RelayOutcome.callTs (urlParam.getD "") []
    else
      match parse (headersParam.getD "") with
      | Except.error msg => RelayOutcome.respond 500 msg
      | Except.ok h => RelayOutcome.callTs (urlParam.getD "") h
  else if pathname = "/" then RelayOutcome.serveIndex
  else RelayOutcome.invalidHost pathname

/-! ### Title normalization (stremio.js lines 814-824) -/

/-- First pass: replace an alphanumeric character followed by a
superscript two or three by the character, a space and the digit
(the two global regex replaces at lines 817-818). -/
def normalizeSupPairs : List Char → List Char
  | [] => []
  | [c] => [c]
  | c :: sup :: rest2 =>
    if c.isAlphanum && sup == Char.ofNat 178 then c :: ' ' :: '2' :: normalizeSupPairs rest2
    else if c.isAlphanum && sup == Char.ofNat 179 then c :: ' ' :: '3' :: normalizeSupPairs rest2
    else c :: normalizeSupPairs (sup :: rest2)

/-- Second pass: remaining superscript digits become plain digits
(lines 820-821). -/
def normalizeSupRest (c : Char) : Char :=
  if c == Char.ofNat 178 then '2'
  else if c == Char.ofNat 179 then '3'
  else c

/-- The title normalization applied when a title was retrieved. -/
def normalizeTitle (s : String) : String :=
  String.mk ((normalizeSupPairs s.toList).map normalizeSupRest)

/-! ### The stream handler (stremio.js lines 762-971) -/

/-- The metadata reply used by the handler: title (possibly missing) and
the four-character year substring (null when the release date is
missing). -/
structure DetailsReply where
  title : Option String
  year : Option String
deriving DecidableEq

/-- An xprime.tv result item: a truthy error field, the streams object
as quality-to-URL entries in insertion order (none when missing or not
an object), and the subtitles list. A null or non-object item is Option
at the use site. -/
structure XItem where
  error : Bool
  streams : Option (List (String × String))
  subtitles : List Subtitle
deriving DecidableEq

/-- The parsed xprime.tv response: a single item or an array of items
(elements possibly null). -/
inductive XResult where
  | single (item : Option XItem)
  | array (items : List (Option XItem))
deriving DecidableEq

/-- An HDRezka search result as used by the handler: the id and the
detail page url. -/
structure RezkaItem where
  id : String
  url : String
deriving DecidableEq

/-- The HDRezka stream data reaching the handler: the
formattedQualities entries as (quality, url, type) with type defaulted
to mp4 when falsy, and the formatted captions. -/
structure RezkaData where
  qualities : List (String × String × Option String)
  captions : List Subtitle
deriving DecidableEq

/-- A network call made by the handler, for stating which upstreams a
request touched: the TMDB find lookup, the TMDB details lookup, and the
three provider adapters. -/
inductive CallTag where
  | tmdbFind
  | tmdbDetails
  | mainApi
  | xprime
  | rezka
deriving DecidableEq

/-- The external world of one stream-handler request: every network and
JSON.parse outcome the handler can observe, plus the proxy
configuration. The three HDRezka stages are given by their results,
since searchAndFindMediaIdRezka, getTranslatorIdRezka and getStreamRezka
each catch internally and return null on failure. -/
structure Env where
  tmdb : String → String → Option Nat
  details : String → Nat → Option DetailsReply
  mainApi : Except String HttpResp
  mainParse : String → Except String (Option (List (Option Source)))
  xprimeAttempt : Nat → Except String HttpResp
  xprimeParse : String → Except String XResult
  rezkaSearch : Option RezkaItem
  rezkaTranslator : Option String
  rezkaData : Option RezkaData
  disableProxy : Bool
  proxyBase : String

/-- A stream request: the Stremio id and type. -/
structure Args where
  id : String
  type : String
deriving DecidableEq

/-- The main-API block (lines 832-856): its own try/catch; a thrown
fetch, a non-success status, a parse failure or a non-array payload all
contribute nothing; an array contributes the processed streams of its
elements. -/
def mainApiBlock (env : Env) : List StreamDesc :=
  match env.mainApi with
  | Except.error _ => []
  | Except.ok resp =>
    if resp.ok then
      match env.mainParse resp.body with
      | Except.error _ => []
      | Except.ok none => []
      | Except.ok (some sources) =>
        (sources.map (processStreamingSource env.disableProxy env.proxyBase)).flatten
    else []

/-- processXprimeItem (lines 878-887): skip null, errored or
streams-less items; otherwise build the files array from
Object.entries(item.streams) and process the xprime.tv source. -/
def processXprimeItem (disableProxy : Bool) (proxyBase : String)
    (item : Option XItem) : List StreamDesc :=
  match item with
  | none => []
  | some it =>
    if it.error then []
    else
      match it.streams with
      | none => []
      | some entries =>
        let files := entries.map (fun qu => RawFile.mk qu.2 (some qu.1) (some "url") none)
        processStreamingSource disableProxy proxyBase
          (some (Source.mk false "xprime.tv" (some files) it.subtitles none))

/-- The xprime.tv block (lines 858-892): fetchWithRetry, then
response.json(), then processXprimeItem on the result or on each array
element; any thrown error is caught by the block and contributes
nothing. -/
def xprimeBlock (env : Env) : List StreamDesc :=
  match fetchWithRetry env.xprimeAttempt MAX_RETRIES with
  | (Except.error _, _, _) => []
  | (Except.ok resp, _, _) =>
    match env.xprimeParse resp.body with
    | Except.error _ => []
    | Except.ok (XResult.single item) =>
      processXprimeItem env.disableProxy env.proxyBase item
    | Except.ok (XResult.array items) =>
      (items.map (processXprimeItem env.disableProxy env.proxyBase)).flatten

/-- The HDRezka block (lines 894-947): search, translator and stream
stages in sequence, each guarded; stream files are built from the
formatted qualities and processed as the HDRezka source; every failure
contributes nothing. -/
def rezkaBlock (env : Env) : List StreamDesc :=
  match env.rezkaSearch with
  | none => []
  | some item =>
    if item.id = "" then []
    else
      match env.rezkaTranslator with
      | none => []
      | some tid =>
        if tid = "" then []
        else
          match env.rezkaData with
          | none => []
          | some data =>
            let files := data.qualities.map
              (fun qut => RawFile.mk qut.2.1 (some qut.1) (some (qut.2.2.getD "mp4")) none)
            if files.length > 0 then
              processStreamingSource env.disableProxy env.proxyBase
                (some (Source.mk false "HDRezka" (some files) data.captions none))
            else []

/-- The tail of the metadata prelude shared by both media types: apply
the title normalization, then the essential-metadata guard of line 826
(falsy title or year aborts with an empty result). -/
def finishPrelude (tmdbId : Nat) (title year : Option String) :
    Option (Nat × String × String) × List CallTag :=
  let ntitle := title.map normalizeTitle
  if jsStrFalsy ntitle || jsStrFalsy year then
    (none, [CallTag.tmdbFind, CallTag.tmdbDetails])
  else
    (some (tmdbId, ntitle.getD "", year.getD ""), [CallTag.tmdbFind, CallTag.tmdbDetails])

/-- The metadata prelude of the handler (lines 775-830): for a movie,
the IMDB-to-TMDB conversion then the details fetch; for a series, the
season/episode presence check BEFORE the conversion, then conversion and
details; any other type falls through to the essential-metadata guard
with nothing retrieved. Returns the retrieved (tmdbId, title, year) when
the request survives all guards, plus the trace of lookups made. -/
def preludeRes (env : Env) (args : Args) :
    Option (Nat × String × String) × List CallTag :=
  if args.type = "movie" then
    match env.tmdb args.id "movie" with
    | none => (none, [CallTag.tmdbFind])
    | some tmdbId =>
      if tmdbId = 0 then (none, [CallTag.tmdbFind])
      else
        let d := env.details "movie" tmdbId
        finishPrelude tmdbId (d.bind DetailsReply.title) (d.bind DetailsReply.year)
  else if args.type = "series" then
    let parts := jsSplitColon args.id
    if jsStrFalsy (parts.get? 1) || jsStrFalsy (parts.get? 2) then (none, [])
    else
      match env.tmdb ((parts.get? 0).getD "") "series" with
      | none => (none, [CallTag.tmdbFind])
      | some tmdbId =>
        if tmdbId = 0 then (none, [CallTag.tmdbFind])
        else
          let d := env.details "series" tmdbId
          finishPrelude tmdbId (d.bind DetailsReply.title) (d.bind DetailsReply.year)
  else (none, [])

/-- The stream handler (lines 762-971): the IMDB-pattern guard returns a
bare streams-only object; otherwise the prelude runs, and on success all
three provider blocks run (each isolated by its own try/catch), their
streams are concatenated in block order, sorted, and wrapped by
enrichCacheParams. The outer catch at line 967 is unreachable in this
model because every block is total. -/
def streamHandler (env : Env) (args : Args) : HandlerResponse × List CallTag :=
  if hasImdbPattern args.id then
    match preludeRes env args with
    | (some _, trace) =>
      (enrichCacheParams (sortStreams (mainApiBlock env ++ xprimeBlock env ++ rezkaBlock env)),
        trace ++ [CallTag.mainApi, CallTag.xprime, CallTag.rezka])
    | (none, trace) => (enrichCacheParams [], trace)
  else ({ streams := [], cacheMaxAge := none, staleRevalidate := none, staleError := none }, [])

/-- A provider failure of the main-API block: thrown fetch, non-success
status, or a JSON parse failure on the body. -/
def mainApiFailed (env : Env) : Prop :=
  (∃ e, env.mainApi = Except.error e) ∨
  (∃ r, env.mainApi = Except.ok r ∧ r.ok = false) ∨
  (∃ r e, env.mainApi = Except.ok r ∧ r.ok = true ∧ env.mainParse r.body = Except.error e)

/-- A provider failure of the xprime.tv block: retries exhausted, or a
JSON parse failure on the final body. -/
def xprimeFailed (env : Env) : Prop :=
  (∃ e n d, fetchWithRetry env.xprimeAttempt MAX_RETRIES = (Except.error e, n, d)) ∨
  (∃ r n d e, fetchWithRetry env.xprimeAttempt MAX_RETRIES = (Except.ok r, n, d) ∧
    env.xprimeParse r.body = Except.error e)

/-- A provider failure of the HDRezka block: any stage yielding null or
a falsy id. -/
def rezkaFailed (env : Env) : Prop :=
  env.rezkaSearch = none ∨
  (∃ it, env.rezkaSearch = some it ∧ it.id = "") ∨
  env.rezkaTranslator = none ∨
  env.rezkaTranslator = some "" ∨
  env.rezkaData = none

/-! ### Spec-side statement of the quality-inference cascade -/

/-- The quality inference cascade exactly as the spec words it: the
pattern classes tested in the fixed order 2160p/4K/UHD, 1080p/FHD,
720p/HD, 480p/SD, 360p/LD, first match wins; else adaptive for
adaptive-streaming files; else unknown. Stated independently of the
table-driven loop, to be compared with inferQuality. -/
def inferQualityClaim (url : String) (ftype : Option String) : String :=
  if patternTest ["2160p", "4k", "uhd"] url then "2160p"
  else if patternTest ["1080p", "1080", "fhd"] url then "1080p"
  else if patternTest ["720p", "720", "hd"] url then "720p"
  else if patternTest ["480p", "480", "sd"] url then "480p"
  else if patternTest ["360p", "360", "ld"] url then "360p"
  else if ftype == some "hls" || jsIncludes url ".m3u8" then "adaptive"
  else "unknown"

/-- The seven quality labels named by the spec. -/
def qualityLabels : List String :=
  ["2160p", "1080p", "720p", "480p", "360p", "adaptive", "unknown"]

/-! ### Concrete worlds used to instantiate the theorems -/

/-- A sample main-API source: one plain mp4 file with a 720p hint in its
URL. -/
def sampleSource : Source :=
  { ERROR := false,
    provider := "vidsrc",
    files := some [{ file := "https://cdn.example/v_720p.mp4", quality := none,
                     type := some "mp4", lang := some "en" }],
    subtitles := [],
    headers := none }

/-- A world where the main API and xprime.tv fail while HDRezka
succeeds with one 1080p file. -/
def envRezkaOnly : Env :=
  { tmdb := fun _ _ => some 42,
    details := fun _ _ => some { title := some "Title", year := some "2001" },
    mainApi := Except.error "fetch failed: ECONNREFUSED",
    mainParse := fun _ => Except.error "Unexpected end of JSON input",
    xprimeAttempt := fun _ => Except.ok { ok := false, status := 503, body := "" },
    xprimeParse := fun _ => Except.error "Unexpected end of JSON input",
    rezkaSearch := some { id := "77", url := "/films/77-title.html" },
    rezkaTranslator := some "238",
    rezkaData := some { qualities := [("1080p", "https://cdn.example/v1080.mp4", some "mp4")],
                        captions := [] },
    disableProxy := true,
    proxyBase := "" }

/-- A world where the main API succeeds with the sample source and the
other providers fail. -/
def envMainOnly : Env :=
  { tmdb := fun _ _ => some 42,
    details := fun _ _ => some { title := some "Title", year := some "2001" },
    mainApi := Except.ok { ok := true, status := 200, body := "[]" },
    mainParse := fun _ => Except.ok (some [some sampleSource]),
    xprimeAttempt := fun _ => Except.error "fetch failed",
    xprimeParse := fun _ => Except.error "Unexpected end of JSON input",
    rezkaSearch := none,
    rezkaTranslator := none,
    rezkaData := none,
    disableProxy := true,
    proxyBase := "" }

/-- A world where the TMDB find lookup maps nothing. -/
def envNoTmdb : Env :=
  { envMainOnly with tmdb := fun _ _ => none }

/-- The detail-page text a translator id would be extracted from: it
carries the series of the initCDNMoviesEvents call but no
original-with-subtitles marker. -/
def samplePageText : String :=
  "<script>sof.tv.initCDNMoviesEvents(123, 456, false);</script>"

/-- A detail-page text carrying the original-with-subtitles marker. -/
def samplePageMarker : String :=
  "<div data-translator_id=\"238\"></div>"

/-- A stand-in for JSON.parse composed with decodeURIComponent that
fails on every input the way JSON.parse fails on the empty string. -/
def jsonParseStub : String → Except String (List (String × String)) :=
  fun _ => Except.error "Unexpected end of JSON input"

/-- An adaptive (HLS) raw file without a declared quality. -/
def sampleAdaptiveFile : RawFile :=
  { file := "https://host/video.m3u8", quality := none, type := some "hls", lang := none }

/-- An attempt oracle whose every fetch throws. -/
def oFail : Nat → Except String HttpResp :=
  fun k => Except.error ("boom " ++ toString k)

/-- An attempt oracle that delivers a success response whose body does
not parse. -/
def oOkBadBody : Nat → Except String HttpResp :=
  fun _ => Except.ok { ok := true, status := 200, body := "<html>not json</html>" }

/-- A JSON.parse stand-in for the HDRezka envelope that fails on every
body. -/
def rezkaParseFail : String → Except String RezkaResp :=
  fun _ => Except.error "Unexpected token < in JSON"

/-! ### Theorems -/

theorem qualityRankCore_lt (q : String) : qualityRankCore q < 1000 := by
  unfold qualityRankCore
  split_ifs <;> norm_num

theorem getQualityRank_lt (s : String) : getQualityRank s < 1000 := by
  unfold getQualityRank
  split_ifs with h
  · norm_num
  · exact qualityRankCore_lt _

theorem streamLE_iff (a b : StreamDesc) : streamLE a b ↔ twoLevelLE a b := by
  unfold streamLE twoLevelLE streamKey
  have ha := getQualityRank_lt a.qualityLabel
  have hb := getQualityRank_lt b.qualityLabel
  omega

theorem filter_orderedInsert_pos (p q : Nat) (x : StreamDesc) (l : List StreamDesc)
    (hx : rankClass p q x = true) :
    (List.orderedInsert streamLE x l).filter (rankClass p q) = x :: l.filter (rankClass p q) := by
  induction l with
  | nil => simp [List.orderedInsert, hx]
  | cons y ys ih =>
    by_cases hxy : streamLE x y
    · simp [List.orderedInsert, hxy, List.filter_cons, hx]
    · have hkey : streamKey y < streamKey x := by
        unfold streamLE at hxy
        omega
      have hy : rankClass p q y = false := by
        cases hyv : rankClass p q y with
        | false => rfl
        | true =>
          exfalso
          unfold rankClass at hx hyv
          simp only [Bool.and_eq_true, beq_iff_eq] at hx hyv
          unfold streamKey at hkey
          omega
      simp [List.orderedInsert, hxy, List.filter_cons, hy, ih]

theorem filter_orderedInsert_neg (p q : Nat) (x : StreamDesc) (l : List StreamDesc)
    (hx : rankClass p q x = false) :
    (List.orderedInsert streamLE x l).filter (rankClass p q) = l.filter (rankClass p q) := by
  induction l with
  | nil => simp [List.orderedInsert, hx]
  | cons y ys ih =>
    by_cases hxy : streamLE x y
    · simp [List.orderedInsert, hxy, List.filter_cons, hx]
    · simp [List.orderedInsert, hxy, List.filter_cons, ih]

theorem filter_sortStreams (p q : Nat) (l : List StreamDesc) :
    (sortStreams l).filter (rankClass p q) = l.filter (rankClass p q) := by
  induction l with
  | nil => rfl
  | cons x xs ih =>
    have hstep : sortStreams (x :: xs) = List.orderedInsert streamLE x (sortStreams xs) := by
      simp [sortStreams, List.insertionSort]
    cases hx : rankClass p q x with
    | true =>
      rw [hstep, filter_orderedInsert_pos p q x _ hx, ih, List.filter_cons, hx]
      simp
    | false =>
      rw [hstep, filter_orderedInsert_neg p q x _ hx, ih, List.filter_cons, hx]
      simp

theorem sorted_two_level (l : List StreamDesc) :
    List.Sorted twoLevelLE (sortStreams l) := by
  have h := List.sorted_insertionSort streamLE l
  exact h.imp (fun hab => (streamLE_iff _ _).1 hab)

/-- Claim C2: the sort at stremio.js lines 950-963 produces a two-level
stable order: a permutation of the input that is pairwise ordered by
provider rank first (xprime.tv most trusted, unknown providers sharing
rank 10) and quality rank second (4K, 1080p, 720p, adaptive, 480p, 360p,
unknown in ascending rank), and any two streams with equal provider rank
and equal quality rank keep their relative input order (stated as filter
invariance over every rank class). -/
theorem ranking_two_level_stable (l : List StreamDesc) :
    (sortStreams l).Perm l ∧
    List.Sorted twoLevelLE (sortStreams l) ∧
    (∀ p q : Nat, (sortStreams l).filter (rankClass p q) = l.filter (rankClass p q)) ∧
    (getProviderRank "xprime.tv" = 1 ∧ getProviderRank "HDRezka" = 2 ∧
      getProviderRank "2embed" = 10 ∧ getProviderRank "SomeNewProvider" = 10) ∧
    (getQualityRank "2160p" < getQualityRank "1080p" ∧
      getQualityRank "1080p" < getQualityRank "720p" ∧
      getQualityRank "720p" < getQualityRank "adaptive" ∧
      getQualityRank "adaptive" < getQualityRank "480p" ∧
      getQualityRank "480p" < getQualityRank "360p" ∧
      getQualityRank "360p" < getQualityRank "unknown") :=
  ⟨List.perm_insertionSort streamLE l, sorted_two_level l,
    fun p q => filter_sortStreams p q l, by decide, by decide⟩

/-- Claim C8: enrichCacheParams selects the short max-age (60 s) exactly
when the stream list is empty and the long max-age (3600 s) exactly when
it is non-empty. -/
theorem cache_selection (streams : List StreamDesc) :
    ((enrichCacheParams streams).cacheMaxAge = some CACHE_MAX_AGE_EMPTY ↔ streams = []) ∧
    ((enrichCacheParams streams).cacheMaxAge = some CACHE_MAX_AGE ↔ streams ≠ []) ∧
    CACHE_MAX_AGE_EMPTY = 60 ∧ CACHE_MAX_AGE = 3600 := by
  refine ⟨?_, ?_, rfl, rfl⟩ <;>
    cases streams <;>
      simp [enrichCacheParams, CACHE_MAX_AGE, CACHE_MAX_AGE_EMPTY]

theorem inferQuality_eq_claim (url : String) (ftype : Option String) :
    inferQuality url ftype = inferQualityClaim url ftype := by
  unfold inferQuality inferQualityClaim inferFromPatterns qualityPatterns
  cases h1 : patternTest ["2160p", "4k", "uhd"] url <;>
    cases h2 : patternTest ["1080p", "1080", "fhd"] url <;>
      cases h3 : patternTest ["720p", "720", "hd"] url <;>
        cases h4 : patternTest ["480p", "480", "sd"] url <;>
          cases h5 : patternTest ["360p", "360", "ld"] url <;>
            simp [List.find?, h1, h2, h3, h4, h5]

/-- Claim C3: for a RawFile without a declared quality the inferred
label is deterministic and total: it always is one of the seven labels,
it equals the first-match cascade over the fixed pattern order exactly
as the spec words it, and processStreamingSource assigns it as the
qualityLabel of the produced stream. -/
theorem quality_inference_total :
    (∀ url ftype, inferQuality url ftype = inferQualityClaim url ftype) ∧
    (∀ url ftype, inferQuality url ftype ∈ qualityLabels) ∧
    (∀ dp pb prov hdrs (f : RawFile), jsStrFalsy f.quality = true →
      (processFile dp pb prov hdrs f).qualityLabel = inferQuality f.file f.type) := by
  refine ⟨inferQuality_eq_claim, ?_, ?_⟩
  · intro url ftype
    rw [inferQuality_eq_claim]
    unfold inferQualityClaim
    split_ifs <;> simp [qualityLabels]
  · intro dp pb prov hdrs f h
    simp [processFile, h]

theorem quality_inference_total_witness :
    jsStrFalsy (sampleAdaptiveFile.quality) = true ∧
    (processFile true "" "vidsrc" none sampleAdaptiveFile).qualityLabel =
      inferQuality sampleAdaptiveFile.file sampleAdaptiveFile.type ∧
    inferQuality sampleAdaptiveFile.file sampleAdaptiveFile.type = "adaptive" :=
  ⟨by decide, quality_inference_total.2.2 true "" "vidsrc" none sampleAdaptiveFile (by decide),
    by decide⟩

/-- Claim C4, counterexample: an adaptive (HLS) file from the provider
2embed keeps its original URL even though proxying is enabled
(disableProxy is false), because of the explicit 2embed exception at
line 707 that the claim omits. -/
theorem relay_rewrite_counterexample :
    isAdaptiveFile sampleAdaptiveFile = true ∧
    (processFile false "http://10.0.0.2:8082" "2embed" none sampleAdaptiveFile).url =
      sampleAdaptiveFile.file ∧
    jsIncludes (processFile false "http://10.0.0.2:8082" "2embed" none sampleAdaptiveFile).url
      "/m3u8-proxy" = false := by
  decide

/-- Claim C4 as amended: when proxying is enabled and the provider is
not 2embed, every adaptive file URL is rewritten through the relay
/m3u8-proxy endpoint with the original URL percent-encoded in the url
parameter and the declared headers JSON-encoded and percent-encoded in
the headers parameter; non-adaptive files always keep their original
URL. -/
theorem relay_rewrite_amended :
    (∀ pb provider headers (f : RawFile),
      isAdaptiveFile f = true → provider ≠ "2embed" →
      (processFile false pb provider headers f).url =
        pb ++ "/m3u8-proxy?url=" ++ encodeURIComponent f.file ++ headersSuffix headers) ∧
    (∀ dp pb provider headers (f : RawFile),
      isAdaptiveFile f = false →
      (processFile dp pb provider headers f).url = f.file) := by
  constructor
  · intro pb provider headers f h1 h2
    simp [processFile, h1, h2]
  · intro dp pb provider headers f h1
    simp [processFile, h1]

theorem relay_rewrite_amended_witness :
    (processFile false "http://10.0.0.2:8082" "xprime.tv"
        (some [("Referer", "https://org.example/")]) sampleAdaptiveFile).url =
      "http://10.0.0.2:8082" ++ "/m3u8-proxy?url=" ++
        encodeURIComponent sampleAdaptiveFile.file ++
        headersSuffix (some [("Referer", "https://org.example/")]) :=
  relay_rewrite_amended.1 "http://10.0.0.2:8082" "xprime.tv"
    (some [("Referer", "https://org.example/")]) sampleAdaptiveFile (by decide) (by decide)

/-- Claim C5: fetchWithRetry makes at most MAX_RETRIES = 3 attempts; the
backoff delays slept are RETRY_DELAY_MS * 2 ^ (k - 1) after failed
attempt k; a response with a non-success status counts as a retryable
failure; when every attempt fails the error of the final attempt is the
one thrown; and a malformed JSON body on a success response is parsed
outside the retry loop in getStreamRezka, yielding null with no further
fetch attempt. -/
theorem retry_policy (o : Nat → Except String HttpResp)
    (parse : String → Except String RezkaResp) :
    ((fetchWithRetry o MAX_RETRIES).2.1 ≤ MAX_RETRIES) ∧
    ((fetchWithRetry o MAX_RETRIES).2.2 =
      (List.range ((fetchWithRetry o MAX_RETRIES).2.1 - 1)).map
        (fun k => RETRY_DELAY_MS * 2 ^ k)) ∧
    (∀ r1 r2, o 1 = Except.ok r1 → r1.ok = false → o 2 = Except.ok r2 → r2.ok = true →
      fetchWithRetry o MAX_RETRIES = (Except.ok r2, 2, [RETRY_DELAY_MS])) ∧
    (∀ e1 e2 e3, attemptOutcome (o 1) = Except.error e1 →
      attemptOutcome (o 2) = Except.error e2 → attemptOutcome (o 3) = Except.error e3 →
      fetchWithRetry o MAX_RETRIES = (Except.error e3, 3, [RETRY_DELAY_MS, 2 * RETRY_DELAY_MS])) ∧
    (∀ r msg, o 1 = Except.ok r → r.ok = true → parse r.body = Except.error msg →
      getStreamRezka o parse (some "77") (some "238") = (none, 1)) := by
  refine ⟨?_, ?_, ?_, ?_, ?_⟩
  · rcases h1 : attemptOutcome (o 1) with e1 | r1
    · rcases h2 : attemptOutcome (o 2) with e2 | r2
      · rcases h3 : attemptOutcome (o 3) with e3 | r3 <;>
          simp [fetchWithRetry, fetchWithRetryAux, h1, h2, h3, MAX_RETRIES]
      · simp [fetchWithRetry, fetchWithRetryAux, h1, h2, MAX_RETRIES]
    · simp [fetchWithRetry, fetchWithRetryAux, h1, MAX_RETRIES]
  · rcases h1 : attemptOutcome (o 1) with e1 | r1
    · rcases h2 : attemptOutcome (o 2) with e2 | r2
      · rcases h3 : attemptOutcome (o 3) with e3 | r3 <;>
          simp [fetchWithRetry, fetchWithRetryAux, h1, h2, h3, MAX_RETRIES,
            RETRY_DELAY_MS, List.range, List.range.loop]
      · simp [fetchWithRetry, fetchWithRetryAux, h1, h2, MAX_RETRIES,
          RETRY_DELAY_MS, List.range, List.range.loop]
    · simp [fetchWithRetry, fetchWithRetryAux, h1, MAX_RETRIES]
  · intro r1 r2 ho1 hr1 ho2 hr2
    have h1 : attemptOutcome (o 1) =
        Except.error ("HTTP error! Status: " ++ toString r1.status) := by
      simp [attemptOutcome, ho1, hr1]
    have h2 : attemptOutcome (o 2) = Except.ok r2 := by
      simp [attemptOutcome, ho2, hr2]
    simp [fetchWithRetry, fetchWithRetryAux, h1, h2, MAX_RETRIES, RETRY_DELAY_MS]
  · intro e1 e2 e3 h1 h2 h3
    simp [fetchWithRetry, fetchWithRetryAux, h1, h2, h3, MAX_RETRIES, RETRY_DELAY_MS]
  · intro r msg ho hr hp
    have h1 : attemptOutcome (o 1) = Except.ok r := by
      simp [attemptOutcome, ho, hr]
    simp [getStreamRezka, jsStrFalsy, fetchWithRetry, fetchWithRetryAux, MAX_RETRIES, h1, hp]

theorem retry_policy_witness :
    fetchWithRetry oFail MAX_RETRIES = (Except.error "boom 3", 3, [1000, 2000]) ∧
    getStreamRezka oOkBadBody rezkaParseFail (some "77") (some "238") = (none, 1) :=
  ⟨(retry_policy oFail rezkaParseFail).2.2.2.1 "boom 1" "boom 2" "boom 3" rfl rfl rfl,
    (retry_policy oOkBadBody rezkaParseFail).2.2.2.2
      { ok := true, status := 200, body := "<html>not json</html>" }
      "Unexpected token < in JSON" rfl rfl rfl⟩

/-- Claim C6 (code bug): the first half of the claim holds, the page
marker short-circuits to the sentinel id 238; but the extraction half
never happens. The template literal at line 495 loses its backslashes
(backslash-dot and backslash-parenthesis are unrecognized JS escapes),
so the pattern handed to new RegExp contains an unclosed group and the
constructor throws a SyntaxError for EVERY item id made of digits; the
catch turns it into null. On a page carrying
sof.tv.initCDNMoviesEvents(123, 456, ...) and no marker, the claim
expects the variant id 456 while the code returns null, whatever the
match semantics (the result is none for every regexMatch oracle). -/
theorem translator_regex_slip :
    (∀ rm : String → String → Option String,
      getTranslatorIdRezka rm (some "/films/123-x.html") (some "123") "movie"
        (Except.ok samplePageText) = none) ∧
    (∀ rm : String → String → Option String,
      getTranslatorIdRezka rm (some "/films/123-x.html") (some "123") "movie"
        (Except.ok samplePageMarker) = some "238") ∧
    jsIncludes samplePageText "sof.tv.initCDNMoviesEvents(123, 456" = true ∧
    jsIncludes samplePageText translatorMarker = false ∧
    regexGroupsBalanced (rezkaRegexPattern "initCDNMoviesEvents" "123").toList 0 false = false :=
  ⟨fun _ => rfl, fun _ => rfl, by decide, by decide, by decide⟩

/-- Claim C7 as amended: a present, NON-EMPTY headers parameter that
fails to decode or parse as JSON makes both relay endpoints answer 500
with the parse error message as body, and neither proxyM3U8 nor proxyTs
is invoked. -/
theorem relay_headers_500 (parse : String → Except String (List (String × String)))
    (hs msg : String) (urlParam : Option String)
    (hne : hs ≠ "") (hparse : parse hs = Except.error msg) :
    proxyDispatch parse "/m3u8-proxy" (some hs) urlParam = RelayOutcome.respond 500 msg ∧
    proxyDispatch parse "/ts-proxy" (some hs) urlParam = RelayOutcome.respond 500 msg ∧
    (∀ u h, proxyDispatch parse "/m3u8-proxy" (some hs) urlParam ≠ RelayOutcome.callM3U8 u h) ∧
    (∀ u h, proxyDispatch parse "/ts-proxy" (some hs) urlParam ≠ RelayOutcome.callTs u h) := by
  refine ⟨?_, ?_, ?_, ?_⟩ <;> simp [proxyDispatch, jsStrFalsy, hne, hparse]

theorem relay_headers_500_witness :
    proxyDispatch jsonParseStub "/m3u8-proxy" (some "not-json")
      (some "http://upstream/pl.m3u8") =
      RelayOutcome.respond 500 "Unexpected end of JSON input" :=
  (relay_headers_500 jsonParseStub "not-json" "Unexpected end of JSON input"
    (some "http://upstream/pl.m3u8") (by decide) rfl).1

/-- Claim C7, counterexample: a request with the headers parameter
present but EMPTY (headers=) is not parsed at all, although the empty
string is not valid JSON (jsonParseStub fails on it the way JSON.parse
does): the falsy-value guard at line 139 skips parsing and proxyM3U8 IS
invoked with an empty headers object, instead of the claimed 500. -/
theorem relay_headers_empty_counterexample :
    jsonParseStub "" = Except.error "Unexpected end of JSON input" ∧
    proxyDispatch jsonParseStub "/m3u8-proxy" (some "") (some "http://upstream/pl.m3u8") =
      RelayOutcome.callM3U8 "http://upstream/pl.m3u8" [] :=
  ⟨rfl, rfl⟩

/-- Claim C9, counterexample: the series request tt0000077:0:1 has
season 0, which is not a positive integer, so the claim requires an
empty result with no lookup and no provider call; the code only checks
that the season and episode components are present, so it proceeds to
the TMDB lookup and the provider fetches and returns their streams. -/
theorem series_validation_counterexample :
    (streamHandler envMainOnly { id := "tt0000077:0:1", type := "series" }).1.streams ≠ [] ∧
    CallTag.mainApi ∈ (streamHandler envMainOnly { id := "tt0000077:0:1", type := "series" }).2 := by
  decide

/-- Claim C9 as amended: for a series request the season and episode id
components are validated to be PRESENT AND NON-EMPTY (not to be positive
integers) before the metadata lookup; a request missing either component
returns the empty enriched result with no network call at all, and a
request whose external id the TMDB find lookup cannot map returns the
empty enriched result after only that lookup, with no provider adapter
invoked and no stream-API call made; the empty result carries the short
cache max-age. -/
theorem series_validation_amended (env : Env) (args : Args)
    (htype : args.type = "series") (hid : hasImdbPattern args.id = true) :
    ((jsStrFalsy (jsSplitColon args.id)[1]? ||
        jsStrFalsy (jsSplitColon args.id)[2]?) = true →
      streamHandler env args = (enrichCacheParams [], [])) ∧
    ((jsStrFalsy (jsSplitColon args.id)[1]? ||
        jsStrFalsy (jsSplitColon args.id)[2]?) = false →
      env.tmdb ((jsSplitColon args.id)[0]?.getD "") "series" = none →
      streamHandler env args = (enrichCacheParams [], [CallTag.tmdbFind])) ∧
    (enrichCacheParams []).cacheMaxAge = some CACHE_MAX_AGE_EMPTY := by
  refine ⟨?_, ?_, rfl⟩
  · intro hval
    have hpre : preludeRes env args = (none, []) := by
      cases hA : jsStrFalsy (jsSplitColon args.id)[1]? <;>
        cases hB : jsStrFalsy (jsSplitColon args.id)[2]?
      · simp [hA, hB] at hval
      all_goals simp [preludeRes, htype, hA, hB]
    simp [streamHandler, hid, hpre]
  · intro hval htm
    have hA : jsStrFalsy (jsSplitColon args.id)[1]? = false := by
      cases h : jsStrFalsy (jsSplitColon args.id)[1]?
      · rfl
      · simp [h] at hval
    have hB : jsStrFalsy (jsSplitColon args.id)[2]? = false := by
      cases h : jsStrFalsy (jsSplitColon args.id)[2]?
      · rfl
      · simp [h] at hval
    have hpre : preludeRes env args = (none, [CallTag.tmdbFind]) := by
      simp [preludeRes, htype, hA, hB, htm]
    simp [streamHandler, hid, hpre]

theorem series_validation_amended_witness :
    streamHandler envNoTmdb { id := "tt0000077:2:3", type := "series" } =
      (enrichCacheParams [], [CallTag.tmdbFind]) :=
  (series_validation_amended envNoTmdb { id := "tt0000077:2:3", type := "series" }
    rfl (by decide)).2.1 (by decide) rfl

/-- Claim C10, counterexample: for a request id without the tt-digits
pattern the handler returns the bare streams-only object of line 767,
which carries NO stale windows at all, so not every handler response
carries staleRevalidate 14400 and staleError 604800. -/
theorem stale_windows_counterexample :
    (streamHandler envNoTmdb { id := "ttabc", type := "movie" }).1 =
      { streams := [], cacheMaxAge := none, staleRevalidate := none, staleError := none } ∧
    (streamHandler envNoTmdb { id := "ttabc", type := "movie" }).1.staleRevalidate ≠
      some STALE_REVALIDATE_AGE := by
  decide

/-- Claim C10 as amended: every response built by enrichCacheParams,
that is every stream-handler response for a request id matching the
IMDB pattern, carries the fixed stale windows staleRevalidate = 14400
and staleError = 604800, and two enriched results differ at most in
streams and cacheMaxAge; only the early bare return for a non-matching
id lacks the cache fields. -/
theorem stale_windows_amended (env : Env) (args : Args) (s t : List StreamDesc)
    (hid : hasImdbPattern args.id = true) :
    (enrichCacheParams s).staleRevalidate = some STALE_REVALIDATE_AGE ∧
    (enrichCacheParams s).staleError = some STALE_ERROR_AGE ∧
    STALE_REVALIDATE_AGE = 14400 ∧ STALE_ERROR_AGE = 604800 ∧
    (streamHandler env args).1.staleRevalidate = some 14400 ∧
    (streamHandler env args).1.staleError = some 604800 ∧
    (enrichCacheParams s).staleRevalidate = (enrichCacheParams t).staleRevalidate ∧
    (enrichCacheParams s).staleError = (enrichCacheParams t).staleError := by
  have hw : (streamHandler env args).1.staleRevalidate = some 14400 ∧
      (streamHandler env args).1.staleError = some 604800 := by
    rcases hpre : preludeRes env args with ⟨o, tr⟩
    cases o <;>
      simp [streamHandler, hid, hpre, enrichCacheParams, STALE_REVALIDATE_AGE, STALE_ERROR_AGE]
  exact ⟨rfl, rfl, rfl, rfl, hw.1, hw.2, rfl, rfl⟩

theorem stale_windows_amended_witness :
    (streamHandler envNoTmdb { id := "tt0000077", type := "movie" }).1.staleRevalidate =
      some 14400 :=
  (stale_windows_amended envNoTmdb { id := "tt0000077", type := "movie" } [] []
    (by decide)).2.2.2.2.1

theorem mainApiBlock_empty (env : Env) (h : mainApiFailed env) : mainApiBlock env = [] := by
  rcases h with ⟨e, he⟩ | ⟨r, hr, hok⟩ | ⟨r, e, hr, hok, hp⟩
  · simp [mainApiBlock, he]
  · simp [mainApiBlock, hr, hok]
  · simp [mainApiBlock, hr, hok, hp]

theorem xprimeBlock_empty (env : Env) (h : xprimeFailed env) : xprimeBlock env = [] := by
  rcases h with ⟨e, n, d, hf⟩ | ⟨r, n, d, e, hf, hp⟩
  · simp [xprimeBlock, hf]
  · simp [xprimeBlock, hf, hp]

theorem rezkaBlock_empty (env : Env) (h : rezkaFailed env) : rezkaBlock env = [] := by
  rcases h with h | ⟨it, hit, hid⟩ | h | h | h
  · simp [rezkaBlock, h]
  · simp [rezkaBlock, hit, hid]
  · cases hs : env.rezkaSearch with
    | none => simp [rezkaBlock, hs]
    | some item =>
      by_cases hid : item.id = "" <;> simp [rezkaBlock, hs, hid, h]
  · cases hs : env.rezkaSearch with
    | none => simp [rezkaBlock, hs]
    | some item =>
      by_cases hid : item.id = "" <;> simp [rezkaBlock, hs, hid, h]
  · cases hs : env.rezkaSearch with
    | none => simp [rezkaBlock, hs]
    | some item =>
      cases ht : env.rezkaTranslator with
      | none => by_cases hid : item.id = "" <;> simp [rezkaBlock, hs, hid, ht]
      | some tid =>
        by_cases hid : item.id = "" <;> by_cases htid : tid = "" <;>
          simp [rezkaBlock, hs, hid, ht, htid, h]

/-- Claim C1: whenever a request passes the id guard and the metadata
prelude, the handler returns the enriched, sorted concatenation of the
three provider block contributions; a provider that fails with any
error kind (thrown fetch, non-success status, JSON parse failure,
exhausted retries, or a failed scraping stage) contributes the empty
list, so the streams are exactly those of the succeeding providers (up
to the ranking permutation), and the handler always returns a
well-formed enriched response, never an error. -/
theorem partial_failure (env : Env) (args : Args)
    (hid : hasImdbPattern args.id = true)
    (v : Nat × String × String) (tr : List CallTag)
    (hpre : preludeRes env args = (some v, tr)) :
    streamHandler env args =
      (enrichCacheParams (sortStreams (mainApiBlock env ++ xprimeBlock env ++ rezkaBlock env)),
        tr ++ [CallTag.mainApi, CallTag.xprime, CallTag.rezka]) ∧
    (streamHandler env args).1.streams.Perm
      (mainApiBlock env ++ xprimeBlock env ++ rezkaBlock env) ∧
    (mainApiFailed env → mainApiBlock env = []) ∧
    (xprimeFailed env → xprimeBlock env = []) ∧
    (rezkaFailed env → rezkaBlock env = []) ∧
    (streamHandler env args).1.cacheMaxAge.isSome = true := by
  have h1 : streamHandler env args =
      (enrichCacheParams (sortStreams (mainApiBlock env ++ xprimeBlock env ++ rezkaBlock env)),
        tr ++ [CallTag.mainApi, CallTag.xprime, CallTag.rezka]) := by
    simp [streamHandler, hid, hpre]
  refine ⟨h1, ?_, mainApiBlock_empty env, xprimeBlock_empty env, rezkaBlock_empty env, ?_⟩
  · rw [h1]
    simp only [enrichCacheParams]
    exact List.perm_insertionSort streamLE _
  · rw [h1]
    simp [enrichCacheParams]

theorem partial_failure_witness :
    (streamHandler envRezkaOnly { id := "tt0000077", type := "movie" }).1.streams.Perm
      (mainApiBlock envRezkaOnly ++ xprimeBlock envRezkaOnly ++ rezkaBlock envRezkaOnly) ∧
    mainApiBlock envRezkaOnly = [] ∧
    xprimeBlock envRezkaOnly = [] ∧
    rezkaBlock envRezkaOnly ≠ [] ∧
    (streamHandler envRezkaOnly { id := "tt0000077", type := "movie" }).1.cacheMaxAge.isSome
      = true := by
  have h := partial_failure envRezkaOnly { id := "tt0000077", type := "movie" }
    (by decide) (42, "Title", "2001") [CallTag.tmdbFind, CallTag.tmdbDetails] (by decide)
  exact ⟨h.2.1,
    h.2.2.1 (Or.inl ⟨"fetch failed: ECONNREFUSED", rfl⟩),
    h.2.2.2.1 (Or.inl ⟨"HTTP error! Status: 503", 3, [1000, 2000], rfl⟩),
    by decide,
    h.2.2.2.2.2⟩
